import Mathlib

/-!
Shallow embedding of the Snake game in `src/main.rs` (prcastro/snake_rust).

Conventions of the embedding:
* Rust `i32` values are modelled as `Int` (the program only handles small
  grid coordinates, far from any `i32` overflow).
* `std::time::Instant` / `Duration` are modelled as `Nat` milliseconds.
* `LinkedList<GridElem>` is modelled as `List GridElem`; `push_front` is
  `List.cons`, `pop_back` is `List.dropLast`, `push_back` on the empty list
  builds a singleton.
* Methods taking `&mut self` are embedded as functions returning the new
  value of `self` (state passing); infallible methods returning
  `GameResult<()>` that are always `Ok(())` are embedded as the updated
  state, and `State::update`, whose `GameResult` is observable through the
  event loop, keeps an explicit `Except` layer.
-/

/-- `const GRID_SIZE: (i32, i32) = (30, 20)` — grid width and height. -/
def GRID_SIZE : Int × Int := (30, 20)

/-- `const TIME_PER_UPDATE: Duration = Duration::from_millis((1.0 / 8.0 * 1000.0) as u64)`,
in milliseconds: `1.0 / 8.0 * 1000.0 = 125.0` exactly, so the cast yields 125. -/
def TIME_PER_UPDATE : Nat := 125

/-- `struct GridElem { x: i32, y: i32 }`. -/
structure GridElem where
  x : Int
  y : Int
deriving DecidableEq, Repr

/-- Modelled from the spec: the pseudo-random generator is the third-party
`oorandom::Rand32`, whose source is not part of this repository. The spec
says `random(rng, max_x, max_y)` draws each component uniformly from
`[0, max_x)` / `[0, max_y)`; we model the generator as a predetermined
stream of draws together with a cursor, and `rand_range lo hi` consumes the
next draw and maps it into `[lo, hi)` by modulo. -/
structure Rand32 where
  stream : Nat → Nat
  idx : Nat

/-- Modelled from the spec: `rng.rand_range(lo..hi)` returns a value in
`[lo, hi)` and advances the generator state. -/
def Rand32.rand_range (rng : Rand32) (lo hi : Nat) : Nat × Rand32 :=
  (lo + rng.stream rng.idx % (hi - lo), { rng with idx := rng.idx + 1 })

/-- `enum Direction { Up, Down, Left, Right }`. -/
inductive Direction where
  | Up
  | Down
  | Left
  | Right
deriving DecidableEq, Repr

/-- The keycode type of the windowing framework: the four arrow keys, plus
all remaining keys, which `Direction::from_keycode` sends to its wildcard
arm alike; `other n` stands for the n-th of those remaining keycodes. -/
inductive KeyCode where
  | up
  | down
  | left
  | right
  | other (n : Nat)
deriving DecidableEq, Repr

/-- `Direction::from_keycode`: maps the four arrow keys, `None` otherwise. -/
def Direction.from_keycode (keycode : KeyCode) : Option Direction :=
  match keycode with
  | KeyCode.up => some Direction.Up
  | KeyCode.down => some Direction.Down
  | KeyCode.left => some Direction.Left
  | KeyCode.right => some Direction.Right
  | KeyCode.other _ => none

/-- `Direction::inverse`. -/
def Direction.inverse (d : Direction) : Direction :=
  match d with
  | Direction.Up => Direction.Down
  | Direction.Down => Direction.Up
  | Direction.Left => Direction.Right
  | Direction.Right => Direction.Left

/-- `GridElem::random(rng, max_x, max_y)`: one component from
`rng.rand_range(0..max_x)`, then one from `rng.rand_range(0..max_y)`
(the `u32`/`i32` casts are identities in the grid's range). -/
def GridElem.random (rng : Rand32) (max_x max_y : Int) : GridElem × Rand32 :=
  let xr := rng.rand_range 0 max_x.toNat
  let yr := xr.2.rand_range 0 max_y.toNat
  ({ x := (xr.1 : Int), y := (yr.1 : Int) }, yr.2)

/-- `GridElem::move_dir(&mut self, direction) -> Self`, embedded with its full
method effect: the pair (returned value, value of `self` after the call).
The body is a single `match` building a fresh `GridElem` from `self.x`,
`self.y` and `GRID_SIZE`; it contains no assignment to `self`, so the
receiver is returned as it was received. `i32::rem_euclid` is `Int`'s `%`
(`Int.emod`) for a positive modulus. -/
def GridElem.move_dir_mut (self : GridElem) (direction : Direction) :
    GridElem × GridElem :=
  (match direction with
    | Direction.Up => { x := self.x, y := (self.y - 1) % GRID_SIZE.2 }
    | Direction.Down => { x := self.x, y := (self.y + 1) % GRID_SIZE.2 }
    | Direction.Left => { x := (self.x - 1) % GRID_SIZE.1, y := self.y }
    | Direction.Right => { x := (self.x + 1) % GRID_SIZE.1, y := self.y },
   self)

/-- The value returned by `GridElem::move_dir`. -/
def GridElem.move_dir (c : GridElem) (direction : Direction) : GridElem :=
  (c.move_dir_mut direction).1

/-- `fn same_position(elem1, elem2) -> bool`: `*elem1 == *elem2`, the derived
component-wise `PartialEq`. -/
def same_position (elem1 elem2 : GridElem) : Bool :=
  decide (elem1 = elem2)

/-- `struct Food { elem: GridElem }`. -/
structure Food where
  elem : GridElem
deriving DecidableEq, Repr

/-- `struct Snake`: head, body (front = just behind head, back = tail),
per-tick flags, current direction. -/
structure Snake where
  head : GridElem
  body : List GridElem
  ate : Bool
  self_ate : Bool
  direction : Direction
deriving DecidableEq, Repr

/-- `Snake::new(pos)`: head at `pos`, a single body segment at
`(pos.x - 1, pos.y)` (plain subtraction, no wrap), direction `Right`,
both flags false. -/
def Snake.new (pos : GridElem) : Snake :=
  let body_pos : GridElem := { x := pos.x - 1, y := pos.y }
  { head := pos
    body := [body_pos]
    ate := false
    self_ate := false
    direction := Direction.Right }

/-- `Snake::update(&mut self, food)`: compute the new head, set `ate`, push
the old head on the front of the body, scan the whole body for the new head
(the loop that sets the `self_ate` flag, embedded as a fold over the list
with the flag as accumulator), pop the tail unless `ate`, set the head.
The method always returns `Ok(())`; its embedding is the updated snake. -/
def Snake.update (self : Snake) (food : Food) : Snake :=
  let new_head := self.head.move_dir self.direction
  let ate := same_position new_head food.elem
  let body1 := self.head :: self.body
  let self_ate := body1.foldl (fun acc body_elem => acc || same_position new_head body_elem) false
  let body2 := if !ate then body1.dropLast else body1
  { head := new_head
    body := body2
    ate := ate
    self_ate := self_ate
    direction := self.direction }

/-- `struct State`: snake, food, rng, timestamp of the last processed tick
(milliseconds). -/
structure State where
  snake : Snake
  food : Food
  rng : Rand32
  last_update_time : Nat

/-- `State::new()`: snake at (15,10), food at (5,5). The rng seed comes from
system entropy and the initial timestamp from `Instant::now()`; both are
environment inputs, passed here as parameters. -/
def State.new (rng : Rand32) (t0 : Nat) : State :=
  { snake := Snake.new { x := 15, y := 10 }
    food := { elem := { x := 5, y := 5 } }
    rng := rng
    last_update_time := t0 }

/-- `EventHandler::update` for `State` (the per-frame tick hook), with
`Instant::now()` passed as the parameter `now`. If less than
`TIME_PER_UPDATE` has elapsed, return `Ok(())` with nothing changed.
Otherwise update the snake, relocate the food randomly if the snake ate,
request the event loop to quit if the snake self-collided (the returned
`Bool`), and record `now` as the last update time. Always returns `Ok`. -/
def State.update (self : State) (now : Nat) : Except String (State × Bool) :=
  if now - self.last_update_time < TIME_PER_UPDATE then
    Except.ok (self, false)
  else
    let snake1 := self.snake.update self.food
    let foodRng :=
      if snake1.ate then
        let r := GridElem.random self.rng GRID_SIZE.1 GRID_SIZE.2
        ({ elem := r.1 }, r.2)
      else
        (self.food, self.rng)
    let quit := snake1.self_ate
    Except.ok
      ({ snake := snake1
         food := foodRng.1
         rng := foodRng.2
         last_update_time := now },
       quit)

/-- `EventHandler::key_down_event` for `State`: translate the keycode; if it
maps to a direction whose inverse is not the current direction, assign it. -/
def State.key_down_event (self : State) (keycode : KeyCode) : State :=
  match Direction.from_keycode keycode with
  | some direction =>
    if direction.inverse ≠ self.snake.direction then
      { self with snake := { self.snake with direction := direction } }
    else
      self
  | none => self

/-- A grid coordinate within the bounds of the 30×20 grid. -/
def in_grid (c : GridElem) : Prop :=
  0 ≤ c.x ∧ c.x < GRID_SIZE.1 ∧ 0 ≤ c.y ∧ c.y < GRID_SIZE.2

instance (c : GridElem) : Decidable (in_grid c) := by
  unfold in_grid
  infer_instance

/-- The x/y displacement of one step in a direction (screen coordinates:
`Up` decreases y). -/
def Direction.dx (d : Direction) : Int :=
  match d with
  | Direction.Left => -1
  | Direction.Right => 1
  | _ => 0

/-- The y displacement of one step in a direction. -/
def Direction.dy (d : Direction) : Int :=
  match d with
  | Direction.Up => -1
  | Direction.Down => 1
  | _ => 0

/-- The spec's description of `move`: shift one unit in the direction and
wrap each axis by true mathematical modulo into the grid. -/
def move_dir_spec (c : GridElem) (d : Direction) : GridElem :=
  { x := (c.x + d.dx) % GRID_SIZE.1, y := (c.y + d.dy) % GRID_SIZE.2 }

/-- A concrete generator for examples: every draw is 0. -/
def zero_rng : Rand32 :=
  { stream := fun _ => 0, idx := 0 }

/-- A concrete generator whose first draw is 16 and whose later draws are 10,
so that the first random grid element it produces is (16, 10). -/
def demo_rng : Rand32 :=
  { stream := fun n => if n = 0 then 16 else 10, idx := 0 }

/-- A concrete game state one step before eating: the snake's head (15,10)
moves right onto the food at (16,10), and `demo_rng` then respawns the food
at (16,10), on top of the snake's new head. -/
def demo_state : State :=
  { snake :=
      { head := { x := 15, y := 10 }
        body := [{ x := 14, y := 10 }]
        ate := false
        self_ate := false
        direction := Direction.Right }
    food := { elem := { x := 16, y := 10 } }
    rng := demo_rng
    last_update_time := 0 }

/-- Folding the self-collision flag over the body, starting from `b`, is `b`
or-ed with `List.any`: the loop in `Snake::update` computes a disjunction. -/
theorem foldl_or_any {α : Type} (p : α → Bool) :
    ∀ (l : List α) (b : Bool),
      l.foldl (fun acc e => acc || p e) b = (b || l.any p) := by
  intro l
  induction l with
  | nil => intro b; simp
  | cons x xs ih => intro b; simp [List.foldl, ih, Bool.or_assoc]

/-- Inverse is an involution on directions. -/
theorem Direction.inverse_involutive (d : Direction) : d.inverse.inverse = d := by
  cases d <;> rfl

/-- C1: after `Snake::update`, `self_ate` is true iff the new head position
`move(head, direction)` equals the former head or any element of the
original body (the scan runs after the former head is pushed onto the body
and before the tail is popped, so the poppable tail is included). -/
theorem snake_update_self_collision_iff (s : Snake) (food : Food) :
    (s.update food).self_ate = true ↔
      s.head.move_dir s.direction ∈ s.head :: s.body := by
  unfold Snake.update
  simp only [foldl_or_any, Bool.false_or, List.any_eq_true]
  constructor
  · rintro ⟨x, hx, hsame⟩
    have hex : s.head.move_dir s.direction = x := by
      simpa [same_position] using hsame
    rwa [hex]
  · intro hmem
    exact ⟨_, hmem, by simp [same_position]⟩

/-- C2: one `Snake::update` grows the total length (head plus body) by
exactly one when `ate` comes out true and leaves it unchanged otherwise. -/
theorem snake_update_length (s : Snake) (food : Food) :
    ((s.update food).ate = true →
      (s.update food).body.length + 1 = (s.body.length + 1) + 1) ∧
    ((s.update food).ate = false →
      (s.update food).body.length + 1 = s.body.length + 1) := by
  unfold Snake.update
  cases h : same_position (s.head.move_dir s.direction) food.elem <;>
    simp [h, List.length_dropLast]

/-- C2 witness: from the initial snake, an update onto the food grows the
length from 2 to 3, and an update away from the food keeps it at 2. -/
theorem snake_update_length_witness :
    ((Snake.new ⟨15, 10⟩).update ⟨⟨16, 10⟩⟩).body.length + 1 =
        ((Snake.new ⟨15, 10⟩).body.length + 1) + 1 ∧
    ((Snake.new ⟨15, 10⟩).update ⟨⟨5, 5⟩⟩).body.length + 1 =
        (Snake.new ⟨15, 10⟩).body.length + 1 :=
  ⟨(snake_update_length (Snake.new ⟨15, 10⟩) ⟨⟨16, 10⟩⟩).1 (by decide),
   (snake_update_length (Snake.new ⟨15, 10⟩) ⟨⟨5, 5⟩⟩).2 (by decide)⟩

/-- C3: on an in-bounds coordinate, `move_dir` is the one-unit shift with
each axis wrapped by true mathematical modulo, so its result is always in
bounds; in particular moving up from (0,0) lands on y = height-1 and moving
right from (width-1, 0) lands on x = 0. -/
theorem move_dir_wraps (c : GridElem) (d : Direction) (h : in_grid c) :
    in_grid (c.move_dir d) ∧
    c.move_dir d = move_dir_spec c d ∧
    (GridElem.move_dir ⟨0, 0⟩ Direction.Up).y = GRID_SIZE.2 - 1 ∧
    (GridElem.move_dir ⟨GRID_SIZE.1 - 1, 0⟩ Direction.Right).x = 0 := by
  refine ⟨?_, ?_, by decide, by decide⟩ <;>
    · obtain ⟨x, y⟩ := c
      cases d <;>
        simp [GridElem.move_dir, GridElem.move_dir_mut, move_dir_spec, in_grid,
          Direction.dx, Direction.dy, GRID_SIZE] at h ⊢ <;>
        omega

/-- C3 witness: the coordinate (0,0) is in bounds and moving it up wraps. -/
theorem move_dir_wraps_witness :
    in_grid (⟨0, 0⟩ : GridElem) ∧
      in_grid (GridElem.move_dir ⟨0, 0⟩ Direction.Up) :=
  ⟨by decide, (move_dir_wraps ⟨0, 0⟩ Direction.Up (by decide)).1⟩

/-- C7: on a grid coordinate (in bounds, as the spec's data model defines
coordinates), the four moves Up, Down, Left, Right in sequence return the
original coordinate. -/
theorem move_dir_round_trip (c : GridElem) (h : in_grid c) :
    (((c.move_dir Direction.Up).move_dir Direction.Down).move_dir
        Direction.Left).move_dir Direction.Right = c := by
  obtain ⟨x, y⟩ := c
  simp [GridElem.move_dir, GridElem.move_dir_mut, in_grid, GRID_SIZE] at h ⊢
  omega

/-- C7 witness: the round trip at the concrete coordinate (3,4). -/
theorem move_dir_round_trip_witness :
    (((GridElem.move_dir ⟨3, 4⟩ Direction.Up).move_dir
        Direction.Down).move_dir Direction.Left).move_dir Direction.Right =
      ⟨3, 4⟩ :=
  move_dir_round_trip ⟨3, 4⟩ (by decide)

/-- C9: `move_dir` is pure: the call leaves its `&mut` receiver exactly as
it was, and a second call on the receiver after the first returns the same
value as the first. -/
theorem move_dir_pure (c : GridElem) (d : Direction) :
    (c.move_dir_mut d).2 = c ∧
    ((c.move_dir_mut d).2.move_dir_mut d).1 = (c.move_dir_mut d).1 :=
  ⟨rfl, rfl⟩

/-- C10: `Snake::new(start)` places the single body segment at exactly
(start.x - 1, start.y) with no modular wrap, so when start.x = 0 the body
segment has x = -1, outside the grid range [0, width). -/
theorem snake_new_body_no_wrap (pos : GridElem) :
    (Snake.new pos).body = [{ x := pos.x - 1, y := pos.y }] ∧
    (pos.x = 0 →
      ∀ e ∈ (Snake.new pos).body,
        e.x = -1 ∧ ¬ (0 ≤ e.x ∧ e.x < GRID_SIZE.1)) := by
  refine ⟨rfl, ?_⟩
  intro h e he
  simp [Snake.new, h] at he
  simp [he, GRID_SIZE]

/-- C10 witness: starting at (0,0), the body segment sits at x = -1. -/
theorem snake_new_body_no_wrap_witness :
    (Snake.new ⟨0, 0⟩).body = [⟨-1, 0⟩] ∧
    ∀ e ∈ (Snake.new ⟨0, 0⟩).body,
      e.x = -1 ∧ ¬ (0 ≤ e.x ∧ e.x < GRID_SIZE.1) :=
  ⟨(snake_new_body_no_wrap ⟨0, 0⟩).1,
   (snake_new_body_no_wrap ⟨0, 0⟩).2 rfl⟩

/-- C4: a per-frame tick call arriving before the tick interval has elapsed
changes nothing: the state (snake, food, rng, last update time) is returned
exactly as it was, no quit is requested, and no error is produced. -/
theorem tick_before_interval_noop (st : State) (now : Nat)
    (h : now - st.last_update_time < TIME_PER_UPDATE) :
    st.update now = Except.ok (st, false) := by
  unfold State.update
  rw [if_pos h]

/-- C4 witness: a tick 100 ms after the initial state is a no-op. -/
theorem tick_before_interval_noop_witness :
    (State.new zero_rng 0).update 100 = Except.ok (State.new zero_rng 0, false) :=
  tick_before_interval_noop (State.new zero_rng 0) 100 (by decide)

/-- C5: on a tick that advances the simulation, if the snake update sets
`ate` the food is replaced by the next random coordinate drawn from the rng
(a value depending on the rng alone, within the 30×20 grid, with no
exclusion check against the snake — witnessed by a concrete run in which
the respawned food lands exactly on the snake's new head); if `ate` is
false the food is unchanged. -/
theorem tick_food_relocation (st : State) (now : Nat)
    (h : ¬ now - st.last_update_time < TIME_PER_UPDATE) :
    ∃ st2 quit, st.update now = Except.ok (st2, quit) ∧
      ((st.snake.update st.food).ate = true →
        st2.food.elem = (GridElem.random st.rng GRID_SIZE.1 GRID_SIZE.2).1 ∧
        in_grid st2.food.elem) ∧
      ((st.snake.update st.food).ate = false → st2.food = st.food) ∧
      (∃ p, demo_state.update 125 = Except.ok p ∧
        p.1.snake.ate = true ∧ p.1.food.elem = p.1.snake.head) := by
  unfold State.update
  rw [if_neg h]
  refine ⟨_, _, rfl, ?_, ?_, ?_⟩
  · intro hate
    constructor
    · simp [hate]
    · simp only [hate, if_true]
      unfold GridElem.random Rand32.rand_range in_grid GRID_SIZE
      simp
      omega
  · intro hnot
    simp [hnot]
  · exact ⟨_, rfl, by decide, by decide⟩

/-- C5 witness: the concrete pre-eating state one tick later. -/
theorem tick_food_relocation_witness :
    ∃ st2 quit, demo_state.update 125 = Except.ok (st2, quit) ∧
      ((demo_state.snake.update demo_state.food).ate = true →
        st2.food.elem =
          (GridElem.random demo_state.rng GRID_SIZE.1 GRID_SIZE.2).1 ∧
        in_grid st2.food.elem) ∧
      ((demo_state.snake.update demo_state.food).ate = false →
        st2.food = demo_state.food) ∧
      (∃ p, demo_state.update 125 = Except.ok p ∧
        p.1.snake.ate = true ∧ p.1.food.elem = p.1.snake.head) :=
  tick_food_relocation demo_state 125 (by decide)

/-- C6: a key event that maps to no direction leaves the state unchanged; a
mapped direction equal to the inverse of the snake's current direction is
rejected (state unchanged); any other mapped direction is assigned to the
snake. -/
theorem key_down_direction_guard (st : State) (k : KeyCode) :
    (Direction.from_keycode k = none → st.key_down_event k = st) ∧
    (∀ d, Direction.from_keycode k = some d →
      (d = st.snake.direction.inverse → st.key_down_event k = st) ∧
      (d ≠ st.snake.direction.inverse →
        (st.key_down_event k).snake.direction = d)) := by
  constructor
  · intro hnone
    simp [State.key_down_event, hnone]
  · intro d hd
    constructor
    · intro hinv
      have heq : d.inverse = st.snake.direction := by
        rw [hinv, Direction.inverse_involutive]
      simp [State.key_down_event, hd, heq]
    · intro hninv
      have hne : d.inverse ≠ st.snake.direction := by
        intro hc
        apply hninv
        rw [← hc, Direction.inverse_involutive]
      simp [State.key_down_event, hd, hne]

/-- C6 witness: from the initial state (direction Right), a non-arrow key
and the Left arrow change nothing, while the Up arrow sets direction Up. -/
theorem key_down_direction_guard_witness :
    (State.new zero_rng 0).key_down_event (KeyCode.other 3) =
        State.new zero_rng 0 ∧
    (State.new zero_rng 0).key_down_event KeyCode.left =
        State.new zero_rng 0 ∧
    ((State.new zero_rng 0).key_down_event KeyCode.up).snake.direction =
        Direction.Up :=
  ⟨(key_down_direction_guard (State.new zero_rng 0) (KeyCode.other 3)).1 rfl,
   ((key_down_direction_guard (State.new zero_rng 0) KeyCode.left).2
      Direction.Left rfl).1 (by decide),
   ((key_down_direction_guard (State.new zero_rng 0) KeyCode.up).2
      Direction.Up rfl).2 (by decide)⟩

/-- C8: from the initial game state (head (15,10), body [(14,10)], direction
Right, food (5,5)), one tick taken at or after the tick interval yields head
(16,10), body exactly [(15,10)], `ate` false, `self_ate` false, the food,
rng and direction untouched, and no quit request. -/
theorem first_tick_scenario (rng : Rand32) (t0 now : Nat)
    (h : TIME_PER_UPDATE ≤ now - t0) :
    (State.new rng t0).update now =
      Except.ok
        ({ snake :=
             { head := ⟨16, 10⟩
               body := [⟨15, 10⟩]
               ate := false
               self_ate := false
               direction := Direction.Right }
           food := { elem := ⟨5, 5⟩ }
           rng := rng
           last_update_time := now }, false) := by
  have hc : ¬ now - (State.new rng t0).last_update_time < TIME_PER_UPDATE := by
    simp only [State.new]
    omega
  unfold State.update
  rw [if_neg hc]
  rfl

/-- C8 witness: with a concrete rng and start time 0, the tick at 125 ms. -/
theorem first_tick_scenario_witness :
    (State.new zero_rng 0).update 125 =
      Except.ok
        ({ snake :=
             { head := ⟨16, 10⟩
               body := [⟨15, 10⟩]
               ate := false
               self_ate := false
               direction := Direction.Right }
           food := { elem := ⟨5, 5⟩ }
           rng := zero_rng
           last_update_time := 125 }, false) :=
  first_tick_scenario zero_rng 0 125 (by decide)
